import Mathlib

/-!
Verification development for the mongoose-test-factory repository.

The definitions below are a shallow embedding of the TypeScript sources:

* `src/src/factory.ts` — the `Factory` class (sync `build`/`make` path, async
  `create` path, overrides, persistence batching);
* `src/generators/registry.ts` — `GeneratorRegistry.getAll` / `getBest` and
  the default generator catalogue (`registerDefaultGenerators`);
* `src/src/generators/base.ts` — `AbstractBaseGenerator.generateSync`;
* `src/src/generators/string.ts` — `MongooseStringGenerator.generate` and the
  specialized string generators;
* `src/src/generators/date.ts` — `MongooseDateGenerator.generate` and the
  specialized date generators;
* `src/src/utils/schema-analyzer.ts` — `SchemaAnalyzer.analyzeField`,
  `recognizePatterns`, `analyzeSemantics`, `extractConstraints`,
  `shouldAutoGenerate` and the default pattern table.

JavaScript values are modelled by the inductive `Value` (objects are ordered
association lists, matching JS insertion-order property semantics); machine
randomness (faker and `Math.random`) is modelled by explicit oracle
parameters; `Date` values are integers (milliseconds since the epoch), with
the calendar-shifting helpers (`setFullYear`, `setMonth`, `setDate`) modelled
as fixed-length shifts — the month-length details are irrelevant to every
property proved here; fallible code returns `Except`.
-/

namespace MTF

/-! ## JS value model -/

/-- Model of a JavaScript value as used by the factory: `null`/`undefined`
collapse to `vNull`, objects are ordered association lists. -/
inductive Value where
  | vNull : Value
  | vStr (s : String) : Value
  | vNum (n : Int) : Value
  | vBool (b : Bool) : Value
  | vDate (ms : Int) : Value
  | vObj (fields : List (String × Value)) : Value

/-- A JS plain object (insertion-ordered property list). -/
abbrev JsObj := List (String × Value)

/-- JS truthiness of a `Value` (`""`, `0`, `false`, `null` are falsy; any
object or date is truthy). -/
def Value.truthy : Value → Bool
  | .vNull => false
  | .vStr s => !(s == "")
  | .vNum n => !(n == 0)
  | .vBool b => b
  | .vDate _ => true
  | .vObj _ => true

/-- Property read on a JS object (first binding wins; bindings are unique when
the object is built through `setProp`). -/
def getProp : JsObj → String → Option Value
  | [], _ => none
  | (k', v) :: rest, k => if k' == k then some v else getProp rest k

/-- Property write on a JS object: replace an existing binding in place, else
append (JS insertion-order semantics). -/
def setProp : JsObj → String → Value → JsObj
  | [], k, v => [(k, v)]
  | (k', w) :: rest, k, v =>
    if k' == k then (k', v) :: rest else (k', w) :: setProp rest k v

/-- `Object.assign(target, src)`: copy the bindings of `src` onto `target` in
order. -/
def objAssign (target : JsObj) (src : JsObj) : JsObj :=
  src.foldl (fun d kv => setProp d kv.1 kv.2) target

/-- `Object.prototype.hasOwnProperty` on the object model. -/
def hasOwn (o : JsObj) (k : String) : Bool :=
  o.any (fun kv => kv.1 == k)

/-! ## String helpers (kernel-friendly replacements for JS string methods) -/

/-- Whether `pat` occurs at the head of `l`. -/
def startsList : List Char → List Char → Bool
  | [], _ => true
  | _ :: _, [] => false
  | p :: ps, c :: cs => p == c && startsList ps cs

/-- Whether `pat` occurs somewhere inside `l`. -/
def infixList (pat : List Char) : List Char → Bool
  | [] => startsList pat []
  | c :: cs => startsList pat (c :: cs) || infixList pat cs

/-- JS `String.prototype.includes`. -/
def strContains (s pat : String) : Bool :=
  infixList pat.data s.data

/-- JS `String.prototype.toLowerCase` (ASCII, which covers every string the
source compares). -/
def lowerStr (s : String) : String :=
  ⟨s.data.map Char.toLower⟩

/-- JS `String.prototype.endsWith`. -/
def endsStr (s suffix : String) : Bool :=
  startsList suffix.data.reverse s.data.reverse

/-- JS `String.prototype.substring(0, n)`. -/
def takeStr (s : String) (n : Nat) : String :=
  ⟨s.data.take n⟩

/-- Split a dotted field path on `'.'` (JS `fieldPath.split(".")`). -/
def splitDotAux : List Char → List Char → List String
  | [], acc => [⟨acc.reverse⟩]
  | c :: cs, acc =>
    if c == '.' then ⟨acc.reverse⟩ :: splitDotAux cs []
    else splitDotAux cs (c :: acc)

/-- JS `fieldPath.split(".")`. -/
def splitDot (s : String) : List String :=
  splitDotAux s.data []

/-! ## Shared data model: field types, constraints, relationships, errors -/

/-- `FieldType` enum from `src/types/common.ts`. -/
inductive FieldType where
  | STRING | NUMBER | BOOLEAN | DATE | OBJECTID | ARRAY | OBJECT
  | MIXED | BUFFER | MAP | UUID | DECIMAL128 | BIGINT
deriving DecidableEq, BEq, Repr

/-- The string value each `FieldType` enum member carries in the source. -/
def fieldTypeStr : FieldType → String
  | .STRING => "String"
  | .NUMBER => "Number"
  | .BOOLEAN => "Boolean"
  | .DATE => "Date"
  | .OBJECTID => "ObjectId"
  | .ARRAY => "Array"
  | .OBJECT => "Object"
  | .MIXED => "Mixed"
  | .BUFFER => "Buffer"
  | .MAP => "Map"
  | .UUID => "UUID"
  | .DECIMAL128 => "Decimal128"
  | .BIGINT => "BigInt"

/-- A JS `RegExp` object as the source observes it: its `toString()` source
text and its `test` predicate. -/
structure RegexL where
  src : String
  test : String → Bool

/-- A mongoose custom validator (`{validator, message}`). -/
structure CustomValidatorL where
  validator : Value → Bool
  message : String

/-- `ValidationConstraints` from `src/types/common.ts`. -/
structure ValidationConstraints where
  required : Bool
  unique : Bool
  min : Option Int
  max : Option Int
  minLength : Option Nat
  maxLength : Option Nat
  matchRe : Option RegexL
  enumVals : Option (List Value)
  validate : Option CustomValidatorL
  default : Option Value

/-- Constraints record with nothing declared. -/
def noConstraints : ValidationConstraints :=
  ⟨false, false, none, none, none, none, none, none, none, none⟩

/-- `FieldRelationship` from `src/types/common.ts`. -/
structure FieldRelationshipL where
  rtype : String
  model : Option String
  path : String
  isArray : Bool

/-- `GenerationError` (message plus optional field path). -/
structure GenErr where
  message : String
  fieldPath : Option String
deriving DecidableEq, Repr

/-- `GenerationContext` from `src/types/common.ts`, restricted to the parts the
generators read, plus the ambient wall clock (`new Date()`) and a fresh
ObjectId source, both of which are impure in JS. Note the context carries no
field constraints — a fact several theorems below turn on. -/
structure GenCtxL where
  fieldPath : String
  index : Nat
  totalCount : Nat
  now : Int
  freshOid : Value

/-! ## String generator (`src/src/generators/string.ts`) -/

/-- Oracle for the opaque random value source (faker) and `Math.random` as
consumed by one `MongooseStringGenerator.generate` invocation. -/
structure StrOracle where
  email : String
  firstName : String
  lastName : String
  fullName : String
  url : String
  phone : String
  streetAddress : String
  city : String
  stateName : String
  country : String
  zipCode : String
  paragraph : String
  username : String
  password : String
  slug : String
  uuid : String
  colorName : String
  company : String
  productName : String
  department : String
  word : String
  currencyCode : String
  countryCode : String
  timeZone : String
  pick : Nat
  randNat : Nat
  wordStream : Nat → String
  padWord : Nat → String
  wordsFn : Nat → String

/-- `AbstractBaseGenerator.getRandomElement`: `array[Math.floor(Math.random()
* array.length)]`, with the random draw supplied by `pick`. (The source throws
on an empty array; the default is unreachable for the non-empty lists it is
called with.) -/
def jsRandomElement (pick : Nat) (arr : List String) : String :=
  arr.getD (pick % arr.length) ""

/-- `getRandomElement` over raw enum values (the TS code casts `any[]` to
`string[]`; non-string elements are outside the source's intended use). -/
def jsRandomElementV (pick : Nat) (arr : List Value) : String :=
  match arr.getD (pick % arr.length) (Value.vStr "") with
  | .vStr s => s
  | _ => ""

/-- `emailPatterns` test (both regexes, case-insensitively on the lowered
name). -/
def strMatchEmail (s : String) : Bool :=
  ["email", "e_mail", "emailaddress", "email_address"].contains s
    || strContains s "email"

/-- `namePatterns` test. -/
def strMatchName (s : String) : Bool :=
  ["name", "title", "label"].contains s
    || ["firstname", "first_name", "lastname", "last_name", "fullname",
        "full_name"].contains s
    || endsStr s "name"

/-- `urlPatterns` test. -/
def strMatchUrl (s : String) : Bool :=
  ["url", "website", "site", "link", "homepage"].contains s || endsStr s "url"

/-- `phonePatterns` test. -/
def strMatchPhone (s : String) : Bool :=
  ["phone", "telephone", "tel", "mobile", "cell"].contains s
    || ["phonenumber", "phone_number"].contains s

/-- `addressPatterns` test. -/
def strMatchAddress (s : String) : Bool :=
  ["address", "street", "city", "state", "country", "zip", "postal"].contains s
    || endsStr s "address"

/-- `descriptionPatterns` test. -/
def strMatchDescription (s : String) : Bool :=
  ["description", "desc", "content", "text", "message", "comment",
    "body"].contains s
    || endsStr s "description"

/-- `MongooseStringGenerator.generateByPattern`: field-name driven dispatch to
faker; returns `""` when no pattern matches. -/
def strGenerateByPattern (o : StrOracle) (fieldName : String) : String :=
  let lower := lowerStr fieldName
  if strMatchEmail lower then o.email
  else if strMatchName lower then
    if strContains lower "first" then o.firstName
    else if strContains lower "last" then o.lastName
    else o.fullName
  else if strMatchUrl lower then o.url
  else if strMatchPhone lower then o.phone
  else if strMatchAddress lower then
    if strContains lower "street" then o.streetAddress
    else if strContains lower "city" then o.city
    else if strContains lower "state" then o.stateName
    else if strContains lower "country" then o.country
    else if strContains lower "zip" || strContains lower "postal" then o.zipCode
    else o.streetAddress
  else if strMatchDescription lower then o.paragraph
  else ""

/-- `MongooseStringGenerator.inferSemantic`. -/
def strInferSemantic (fieldName : String) : Option String :=
  let lower := lowerStr fieldName
  if strContains lower "username" || strContains lower "user_name" then some "username"
  else if strContains lower "password" || strContains lower "pwd" then some "password"
  else if strContains lower "slug" then some "slug"
  else if strContains lower "uuid" || strContains lower "guid" then some "uuid"
  else if strContains lower "color" || strContains lower "colour" then some "color"
  else if strContains lower "company" || strContains lower "organization" then some "company"
  else if strContains lower "product" then some "product"
  else if strContains lower "category" || strContains lower "type" then some "category"
  else if strContains lower "tag" then some "tag"
  else if strContains lower "status" || strContains lower "state" then some "status"
  else if strContains lower "currency" then some "currency"
  else if strContains lower "language" || strContains lower "lang" then some "language"
  else if strContains lower "timezone" || strContains lower "tz" then some "timezone"
  else none

/-- The hard-coded value list of the `"status"` semantic branch. -/
def statusValues : List String := ["active", "inactive", "pending", "archived"]

/-- `MongooseStringGenerator.generateBySemantic`. -/
def strGenerateBySemantic (o : StrOracle) (fieldName : String) : Option String :=
  match strInferSemantic fieldName with
  | some "username" => some o.username
  | some "password" => some o.password
  | some "slug" => some o.slug
  | some "uuid" => some o.uuid
  | some "color" => some o.colorName
  | some "company" => some o.company
  | some "product" => some o.productName
  | some "category" => some o.department
  | some "tag" => some o.word
  | some "status" => some (jsRandomElement o.pick statusValues)
  | some "currency" => some o.currencyCode
  | some "language" => some o.countryCode
  | some "timezone" => some o.timeZone
  | _ => none

/-- `MongooseStringGenerator.generateByRegex`: the acknowledged hard-coded
shapes, keyed off the regex's `toString()`. -/
def strGenerateByRegex (o : StrOracle) (re : RegexL) : String :=
  if strContains re.src "@" then o.email
  else if strContains re.src "\\d" then o.phone
  else if strContains re.src "http" then o.url
  else o.word

/-- `MongooseStringGenerator.generateFromEnum`. -/
def strGenerateFromEnum (o : StrOracle) (values : List Value) : String :=
  jsRandomElementV o.pick values

/-- The word-accumulation loop of `generateGenericString`, fuelled (the JS
`while` terminates because faker words are non-empty; each taken iteration
grows the result by at least one character, so `target + 1` fuel is enough). -/
def strWordLoop (o : StrOracle) (target : Nat) : Nat → Nat → String → String
  | 0, _, acc => acc
  | fuel + 1, i, acc =>
    if acc.length < target then
      let w := o.wordStream i
      if acc.length + w.length + 1 ≤ target then
        strWordLoop o target fuel (i + 1)
          (acc ++ (if acc == "" then "" else " ") ++ w)
      else acc
    else acc

/-- `MongooseStringGenerator.generateGenericString`. The generator's config
declares `options.minLength = 1` and `options.maxLength = 255`, which is what
`getOption` returns here. -/
def strGenerateGeneric (o : StrOracle) (constraints : Option ValidationConstraints) : String :=
  let minLength := ((constraints.bind (·.minLength)).getD 1)
  let maxLength := ((constraints.bind (·.maxLength)).getD 255)
  let targetLength := minLength + o.randNat % (maxLength - minLength + 1)
  let result := strWordLoop o targetLength (targetLength + 1) 0 ""
  let result := if result.length < minLength then o.wordsFn ((minLength + 4) / 5) else result
  if result.length > maxLength then takeStr result maxLength else result

/-- The padding loop of `applyConstraints`, fuelled (each iteration appends at
least the separating space, so `minLen` fuel is enough). -/
def strPadLoop (o : StrOracle) (minLen : Nat) : Nat → Nat → String → String
  | 0, _, acc => acc
  | fuel + 1, i, acc =>
    if acc.length < minLen then
      strPadLoop o minLen fuel (i + 1) (acc ++ " " ++ o.padWord i)
    else acc

/-- `MongooseStringGenerator.applyConstraints` (length pass, then the single
regex regeneration attempt). -/
def strApplyConstraints (o : StrOracle) (value : String) (constraints : Option ValidationConstraints) : String :=
  match constraints with
  | none => value
  | some c =>
    let r := value
    let r := match c.minLength with
      | some m => if m ≠ 0 && r.length < m then strPadLoop o m m 0 r else r
      | none => r
    let r := match c.maxLength with
      | some m => if m ≠ 0 && r.length > m then takeStr r m else r
      | none => r
    match c.matchRe with
    | some re => if !(re.test r) then strGenerateByRegex o re else r
    | none => r

/-- `MongooseStringGenerator.getConstraintsFromContext` — the source returns
`undefined` unconditionally, so the generator never sees the field's declared
constraints. -/
def strGetConstraintsFromContext (_ctx : GenCtxL) : Option ValidationConstraints :=
  none

/-- Body of `MongooseStringGenerator.generate` given the field name and the
constraints the generator managed to extract. -/
def strGenerate (o : StrOracle) (fieldName : String) (constraints : Option ValidationConstraints) : String :=
  let patternValue := strGenerateByPattern o fieldName
  if patternValue != "" then strApplyConstraints o patternValue constraints
  else
    let semanticValue := (strGenerateBySemantic o fieldName).getD ""
    if semanticValue != "" then strApplyConstraints o semanticValue constraints
    else
      match constraints with
      | some c =>
        if (c.enumVals.getD []).length > 0 then strGenerateFromEnum o (c.enumVals.getD [])
        else
          match c.matchRe with
          | some re => strGenerateByRegex o re
          | none => strGenerateGeneric o constraints
      | none => strGenerateGeneric o constraints

/-- `MongooseStringGenerator.generate(context)`: extracts constraints from the
context (always `none`) and dispatches. -/
def strGenerateTop (o : StrOracle) (ctx : GenCtxL) : String :=
  strGenerate o ctx.fieldPath (strGetConstraintsFromContext ctx)

/-! ## Date generator (`src/src/generators/date.ts`)

Dates are integer millisecond timestamps. The calendar-shifting helpers
(`setFullYear`, `setMonth`, `setDate`) are modelled as fixed-length shifts
(365-day years, 30-day months); the properties proved below depend only on
the ordering of the windows, not on month-boundary details. A uniform draw
from a window (`faker.date.between` and `generateInRange`) is modelled by
`sampleInRange` applied to an oracle natural `r`, which realises every value
of the closed window as `r` ranges over the naturals. -/

/-- Milliseconds in a day. -/
def dayMs : Int := 86400000

/-- `date.setFullYear(date.getFullYear() - y)` modelled as a 365-day-year
shift. -/
def subYearsMs (t : Int) (y : Nat) : Int := t - y * (365 * dayMs)

/-- `date.setFullYear(date.getFullYear() + y)` modelled likewise; the `0.5`
call site truncates to a whole-year shift exactly as JS `setFullYear` does
with a fractional year. -/
def addYearsMs (t : Int) (y : ℚ) : Int := t + (Int.floor y) * (365 * dayMs)

/-- `date.setMonth(date.getMonth() + m)` modelled as a 30-day-month shift. -/
def addMonthsMs (t : Int) (m : Nat) : Int := t + m * (30 * dayMs)

/-- `date.setDate(date.getDate() + d)`. -/
def addDaysMs (t : Int) (d : Nat) : Int := t + d * dayMs

/-- `date.setDate(date.getDate() - d)`. -/
def subDaysMs (t : Int) (d : Nat) : Int := t - d * dayMs

/-- A uniform draw from the closed window `[lo, hi]`, the oracle `r` choosing
the point. For `lo ≤ hi` the result always lies in the window, and every point
of the window is realised by some `r`. -/
def sampleInRange (lo hi : Int) (r : Nat) : Int :=
  if lo ≤ hi then lo + (r : Int) % (hi - lo + 1) else lo

/-- `createdAtPatterns` test (exact alternation or `.*created.*`). -/
def dMatchCreated (s : String) : Bool :=
  ["created", "createdat", "created_at", "datecreated", "date_created"].contains s
    || strContains s "created"

/-- `updatedAtPatterns` test. -/
def dMatchUpdated (s : String) : Bool :=
  ["updated", "updatedat", "updated_at", "dateupdated", "date_updated",
    "modified", "modifiedat"].contains s
    || strContains s "updated" || strContains s "modified"

/-- `birthPatterns` test. -/
def dMatchBirth (s : String) : Bool :=
  ["birth", "birthday", "birthdate", "birth_date", "dateofbirth",
    "date_of_birth", "born"].contains s
    || strContains s "birth" || strContains s "born"

/-- `expiryPatterns` test. -/
def dMatchExpiry (s : String) : Bool :=
  ["expiry", "expires", "expiresat", "expires_at", "expiration",
    "expirationdate"].contains s
    || strContains s "expir"

/-- `startPatterns` test. -/
def dMatchStart (s : String) : Bool :=
  ["start", "startdate", "start_date", "startedat", "started_at",
    "from"].contains s
    || strContains s "start"

/-- `endPatterns` test. -/
def dMatchEnd (s : String) : Bool :=
  ["end", "enddate", "end_date", "endedat", "ended_at", "to",
    "until"].contains s
    || strContains s "end"

/-- `dueDatePatterns` test. -/
def dMatchDue (s : String) : Bool :=
  ["due", "duedate", "due_date", "deadline"].contains s
    || strContains s "due" || strContains s "deadline"

/-- `MongooseDateGenerator.getRelatedDate` — the source is a stub returning
`null` unconditionally, so a sibling `createdAt`/`start` value is never seen. -/
def getRelatedDate (_ctx : GenCtxL) (_dtype : String) : Option Int :=
  none

/-- `MongooseDateGenerator.generateRecent(days = 90)`. -/
def dateGenerateRecent (r : Nat) (now : Int) (days : Nat) : Int :=
  sampleInRange (subDaysMs now days) now r

/-- `MongooseDateGenerator.generateCreatedAt`: a draw from the last two
years. -/
def dateGenerateCreatedAt (r : Nat) (now : Int) : Int :=
  sampleInRange (subYearsMs now 2) now r

/-- `MongooseDateGenerator.generateUpdatedAt`: between the sibling created
date and now when available, else the generic recent window. -/
def dateGenerateUpdatedAt (r : Nat) (now : Int) (ctx : GenCtxL) : Int :=
  match getRelatedDate ctx "created" with
  | some createdAt => sampleInRange createdAt now r
  | none => dateGenerateRecent r now 90

/-- `MongooseDateGenerator.generatePast(years)`. -/
def dateGeneratePast (r : Nat) (now : Int) (years : Nat) : Int :=
  sampleInRange (subYearsMs now years) now r

/-- `MongooseDateGenerator.generateFuture(years)` (fractional years truncate
to whole years, as JS `setFullYear` does). -/
def dateGenerateFuture (r : Nat) (now : Int) (years : ℚ) : Int :=
  sampleInRange now (addYearsMs now years) r

/-- `MongooseDateGenerator.generateEndDate`. -/
def dateGenerateEndDate (r : Nat) (now : Int) (ctx : GenCtxL) : Int :=
  match getRelatedDate ctx "start" with
  | some startDate => sampleInRange startDate (addYearsMs startDate 2) r
  | none => dateGenerateFuture r now 1

/-- `MongooseDateGenerator.generateBySpecificSemantic`. -/
def dateGenerateBySpecific (r : Nat) (now : Int) (s : String) : Option Int :=
  if strContains s "publish" then some (dateGeneratePast r now 2)
  else if strContains s "schedul" then some (dateGenerateFuture r now (1/2))
  else if strContains s "login" || strContains s "seen" || strContains s "visit" then
    some (dateGenerateRecent r now 30)
  else if strContains s "register" || strContains s "signup" then
    some (dateGeneratePast r now 3)
  else if strContains s "timestamp" || strContains s "time" then
    some (dateGenerateRecent r now 7)
  else none

/-- `MongooseDateGenerator.generateBySemantic`. -/
def dateGenerateBySemantic (r : Nat) (now : Int) (ctx : GenCtxL) (fieldName : String) : Int :=
  let lower := lowerStr fieldName
  if dMatchCreated lower then dateGenerateCreatedAt r now
  else if dMatchUpdated lower then dateGenerateUpdatedAt r now ctx
  else if dMatchBirth lower then
    sampleInRange (subYearsMs now 80) (subYearsMs now 18) r
  else if dMatchExpiry lower then
    sampleInRange (addMonthsMs now 1) (addYearsMs now 5) r
  else if dMatchStart lower then
    sampleInRange (subYearsMs now 1) (addYearsMs now 1) r
  else if dMatchEnd lower then dateGenerateEndDate r now ctx
  else if dMatchDue lower then
    sampleInRange (addDaysMs now 7) (addMonthsMs now 6) r
  else
    match dateGenerateBySpecific r now lower with
    | some d => d
    | none => dateGenerateRecent r now 90

/-- `MongooseDateGenerator.applyConstraints` (clamp into `[min, max]`). -/
def dateApplyConstraints (d : Int) (constraints : Option ValidationConstraints) : Int :=
  match constraints with
  | none => d
  | some c =>
    let r := d
    let r := match c.min with
      | some lo => if r < lo then lo else r
      | none => r
    match c.max with
    | some hi => if r > hi then hi else r
    | none => r

/-- `MongooseDateGenerator.getConstraintsFromContext` — returns `undefined`
unconditionally, like the string generator's. -/
def dateGetConstraintsFromContext (_ctx : GenCtxL) : Option ValidationConstraints :=
  none

/-- `MongooseDateGenerator.generate(context)`: the semantic result is a `Date`
object, hence always truthy, so generation always takes the semantic branch
and then runs the (empty) constraint clamp. -/
def dateGenerate (r : Nat) (now : Int) (ctx : GenCtxL) : Int :=
  let fieldName := ctx.fieldPath
  let constraints := dateGetConstraintsFromContext ctx
  let semanticDate := dateGenerateBySemantic r now ctx fieldName
  dateApplyConstraints semanticDate constraints

/-! ## Generator registry (`src/generators/registry.ts`)

A registered generator is modelled by the observations the registry and the
synchronous factory path make of it: its registry key, its class name (used by
the specificity heuristics), `canHandle`, `getPriority`, `isEnabled`, and the
optional `generateSync` member. All twelve default generators extend
`AbstractBaseGenerator` and declare `async generate`, so each inherits the
base `generateSync`, which throws when `generate` returns a promise — always,
for these generators. -/

/-- A registered generator, as observed by the registry and the sync path. -/
structure SGenerator where
  name : String
  ctorName : String
  canHandle : FieldType → Option ValidationConstraints → Bool
  priority : Int
  enabled : Bool
  genSync : Option (GenCtxL → Except GenErr Value)

/-- `AbstractBaseGenerator.generateSync` for a generator whose `generate` is
`async`: it always throws the "does not support synchronous generation"
`GenerationError`. -/
def syncRejects (ctorName : String) : GenCtxL → Except GenErr Value := fun ctx =>
  .error ⟨"Generator " ++ ctorName ++ " does not support synchronous generation",
    some (if ctx.fieldPath == "" then "unknown" else ctx.fieldPath)⟩

/-- `MongooseStringGenerator` registry entry (`canHandle`: STRING). -/
def mongooseStringGen : SGenerator :=
  ⟨"string", "MongooseStringGenerator", fun t _ => t == .STRING, 10, true,
    some (syncRejects "MongooseStringGenerator")⟩

/-- `EmailStringGenerator` entry: STRING and a regex constraint whose source
text contains `@` (so it never matches when `canHandle` is called without
constraints, as `getAll` does). -/
def emailStringGen : SGenerator :=
  ⟨"email", "EmailStringGenerator",
    fun t c => t == .STRING &&
      (match c with
       | some cc => match cc.matchRe with
         | some re => strContains re.src "@"
         | none => false
       | none => false),
    50, true, some (syncRejects "EmailStringGenerator")⟩

/-- `PasswordStringGenerator` entry: the source tests a local
`fieldName = ""`, so `canHandle` is never satisfied. -/
def passwordStringGen : SGenerator :=
  ⟨"password", "PasswordStringGenerator",
    fun t _ =>
      let fieldName := ""
      t == .STRING && strContains (lowerStr fieldName) "password",
    50, true, some (syncRejects "PasswordStringGenerator")⟩

/-- `SlugStringGenerator` entry (same `fieldName = ""` pattern). -/
def slugStringGen : SGenerator :=
  ⟨"slug", "SlugStringGenerator",
    fun t _ =>
      let fieldName := ""
      t == .STRING && strContains (lowerStr fieldName) "slug",
    40, true, some (syncRejects "SlugStringGenerator")⟩

/-- `MongooseNumberGenerator` entry (`canHandle`: NUMBER). -/
def mongooseNumberGen : SGenerator :=
  ⟨"number", "MongooseNumberGenerator", fun t _ => t == .NUMBER, 10, true,
    some (syncRejects "MongooseNumberGenerator")⟩

/-- `PriceNumberGenerator` entry (`fieldName = ""`, so never satisfied). -/
def priceNumberGen : SGenerator :=
  ⟨"price", "PriceNumberGenerator",
    fun t _ =>
      let fieldName := ""
      t == .NUMBER &&
        ["price", "cost", "amount", "total", "fee", "charge",
          "payment"].contains (lowerStr fieldName),
    50, true, some (syncRejects "PriceNumberGenerator")⟩

/-- `AgeNumberGenerator` entry. -/
def ageNumberGen : SGenerator :=
  ⟨"age", "AgeNumberGenerator",
    fun t _ =>
      let fieldName := ""
      t == .NUMBER && strContains (lowerStr fieldName) "age",
    50, true, some (syncRejects "AgeNumberGenerator")⟩

/-- `RatingNumberGenerator` entry. -/
def ratingNumberGen : SGenerator :=
  ⟨"rating", "RatingNumberGenerator",
    fun t _ =>
      let fieldName := ""
      t == .NUMBER &&
        ["rating", "score", "stars", "grade"].contains (lowerStr fieldName),
    45, true, some (syncRejects "RatingNumberGenerator")⟩

/-- `MongooseDateGenerator` entry (`canHandle`: DATE). -/
def mongooseDateGen : SGenerator :=
  ⟨"date", "MongooseDateGenerator", fun t _ => t == .DATE, 10, true,
    some (syncRejects "MongooseDateGenerator")⟩

/-- `TimestampDateGenerator` entry (`fieldName = ""`, so never satisfied). -/
def timestampDateGen : SGenerator :=
  ⟨"timestamp", "TimestampDateGenerator",
    fun t _ =>
      let fieldName := ""
      t == .DATE &&
        ["timestamp", "created", "updated", "modified"].contains (lowerStr fieldName),
    50, true, some (syncRejects "TimestampDateGenerator")⟩

/-- `BirthDateGenerator` entry. -/
def birthDateGen : SGenerator :=
  ⟨"birthdate", "BirthDateGenerator",
    fun t _ =>
      let fieldName := ""
      t == .DATE &&
        ["birth", "birthday", "born", "dob"].contains (lowerStr fieldName),
    50, true, some (syncRejects "BirthDateGenerator")⟩

/-- `FutureDateGenerator` entry. -/
def futureDateGen : SGenerator :=
  ⟨"futuredate", "FutureDateGenerator",
    fun t _ =>
      let fieldName := ""
      t == .DATE &&
        ["expiry", "expires", "due", "deadline", "schedule"].contains (lowerStr fieldName),
    45, true, some (syncRejects "FutureDateGenerator")⟩

/-- `registerDefaultGenerators`: the registry contents after initialization,
in `Map` insertion order. `BooleanGenerator` and the specialized/ObjectId
generators exist in the codebase but are never registered here. -/
def defaultRegistry : List SGenerator :=
  [mongooseStringGen, emailStringGen, passwordStringGen, slugStringGen,
   mongooseNumberGen, priceNumberGen, ageNumberGen, ratingNumberGen,
   mongooseDateGen, timestampDateGen, birthDateGen, futureDateGen]

/-- `GeneratorRegistry.getAll(fieldType)`: every registered generator whose
`canHandle(fieldType)` holds — note the constraints argument is NOT passed.
(The per-field-type cache is semantically transparent because every mutation
clears it.) -/
def getAll (reg : List SGenerator) (t : FieldType) : List SGenerator :=
  reg.filter (fun g => g.canHandle t none)

/-- `canHandleEnum` heuristic (constructor-name sniffing). -/
def canHandleEnum (g : SGenerator) : Bool :=
  strContains g.ctorName "String" || strContains g.ctorName "Enum"

/-- `canHandleRegex` heuristic. -/
def canHandleRegex (g : SGenerator) : Bool :=
  strContains g.ctorName "String"

/-- `canHandleRange` heuristic. -/
def canHandleRange (g : SGenerator) : Bool :=
  strContains g.ctorName "Number" || strContains g.ctorName "Date"

/-- `GeneratorRegistry.getSpecificityScore`. An empty enum array is truthy in
JS, so the enum bonus applies whenever `enum` is present at all. -/
def getSpecificityScore (g : SGenerator) (constraints : Option ValidationConstraints) : Int :=
  let score : Int := g.priority
  match constraints with
  | none => score
  | some c =>
    let score := score + (if c.enumVals.isSome && canHandleEnum g then 10 else 0)
    let score := score + (if c.matchRe.isSome && canHandleRegex g then 10 else 0)
    score + (if (c.min.isSome || c.max.isSome) && canHandleRange g then 5 else 0)

/-- The ordering realised by `getBest`'s comparator
`(a, b) => b.priority - a.priority`, tie-broken by specificity: `gbRel c a b`
holds when the comparator allows `a` to precede `b`. -/
def gbRel (c : Option ValidationConstraints) (a b : SGenerator) : Prop :=
  b.priority < a.priority ∨
    (b.priority = a.priority ∧ getSpecificityScore b c ≤ getSpecificityScore a c)

instance gbRelDec (c : Option ValidationConstraints) : DecidableRel (gbRel c) :=
  fun a b =>
    inferInstanceAs (Decidable (b.priority < a.priority ∨
      (b.priority = a.priority ∧ getSpecificityScore b c ≤ getSpecificityScore a c)))

/-- `GeneratorRegistry.getBest`: zero candidates → none; exactly one →
returned as-is (without consulting `isEnabled`); otherwise the enabled
candidates, sorted by descending priority then specificity, head. -/
def getBest (reg : List SGenerator) (t : FieldType) (constraints : Option ValidationConstraints) : Option SGenerator :=
  let candidates := getAll reg t
  if candidates.length == 0 then none
  else if candidates.length == 1 then candidates.head?
  else
    (List.insertionSort (gbRel constraints) (candidates.filter (·.enabled))).head?

/-- `GeneratorRegistry.setEnabled(name, enabled)` (plus the cache clear, which
is transparent here). -/
def setEnabledReg (reg : List SGenerator) (name : String) (flag : Bool) : List SGenerator :=
  reg.map (fun g => if g.name == name then { g with enabled := flag } else g)

/-! ## Field analysis record (`src/utils/schema-analyzer.ts`, `FieldAnalysis`) -/

/-- `FieldAnalysis`: the per-field record the analyzer emits and the factory
consumes. (`hasNested` flags the presence of the recursive sub-analysis the
source attaches for nested schemas; none of the fields below depend on it.) -/
structure FieldAnalysisL where
  path : String
  type : FieldType
  required : Bool
  unique : Bool
  isArray : Bool
  defaultValue : Option Value
  constraints : ValidationConstraints
  relationship : Option FieldRelationshipL
  patterns : List String
  semantic : Option String
  generatorHint : Option String
  autoGenerate : Bool
  description : Option String
  examples : Option (List Value)
  hasNested : Bool

/-! ## Factory synchronous path (`src/src/factory.ts`) -/

/-- `Factory.getBasicValue`: the per-type fallback used by the sync path when
the selected generator has no `generateSync` member. -/
def getBasicValue (ctx : GenCtxL) (fieldType : String) : Value :=
  if lowerStr fieldType == "string" then .vStr "test-value"
  else if lowerStr fieldType == "number" then .vNum 42
  else if lowerStr fieldType == "boolean" then .vBool true
  else if lowerStr fieldType == "date" then .vDate ctx.now
  else if lowerStr fieldType == "objectid" then ctx.freshOid
  else .vStr "default-value"

/-- `Factory.generateFieldValueSync`: select the best generator; fail when
none exists; call `generateSync` when the member exists (re-wrapping its
error), else substitute the basic fallback value. -/
def generateFieldValueSync (reg : List SGenerator) (ctx : GenCtxL)
    (fieldPath : String) (fa : FieldAnalysisL) : Except GenErr Value :=
  let ctx := { ctx with fieldPath := fieldPath }
  match getBest reg fa.type (some fa.constraints) with
  | none =>
    .error ⟨"No generator found for field type: " ++ fieldTypeStr fa.type,
      some fieldPath⟩
  | some generator =>
    match generator.genSync with
    | some f =>
      match f ctx with
      | .ok v => .ok v
      | .error e =>
        .error ⟨"Failed to generate value for field " ++ fieldPath ++ ": "
          ++ e.message, some fieldPath⟩
    | none => .ok (getBasicValue ctx (fieldTypeStr fa.type))

/-- `Factory.setFieldValue`: write `value` at the dotted path, creating
intermediate objects where the current value is missing or falsy; a truthy
non-object on the way silences the write, as JS property-assignment on a
primitive does. -/
def setFieldValue : JsObj → List String → Value → JsObj
  | doc, [], _ => doc
  | doc, [last], value => setProp doc last value
  | doc, p :: rest, value =>
    match getProp doc p with
    | some (Value.vObj o) => setProp doc p (Value.vObj (setFieldValue o rest value))
    | some w =>
      if w.truthy then doc
      else setProp doc p (Value.vObj (setFieldValue [] rest value))
    | none => setProp doc p (Value.vObj (setFieldValue [] rest value))

/-- `Factory.shouldGenerateField`: skip overridden exact paths, non-auto
fields, and the Mongo internals. -/
def shouldGenerateField (overrides : JsObj) (fieldPath : String) (fa : FieldAnalysisL) : Bool :=
  if hasOwn overrides fieldPath then false
  else if !fa.autoGenerate then false
  else if fieldPath == "_id" || fieldPath == "__v" then false
  else true

/-- Field loop of `Factory.generateSingleDocumentSync`. -/
def genFieldsSync (reg : List SGenerator) (ctx : GenCtxL) (overrides : JsObj) :
    List (String × FieldAnalysisL) → JsObj → Except GenErr JsObj
  | [], doc => .ok doc
  | (fieldPath, fa) :: rest, doc =>
    if shouldGenerateField overrides fieldPath fa then
      match generateFieldValueSync reg ctx fieldPath fa with
      | .error e => .error e
      | .ok v => genFieldsSync reg ctx overrides rest (setFieldValue doc (splitDot fieldPath) v)
    else genFieldsSync reg ctx overrides rest doc

/-- `Factory.generateSingleDocumentSync`: generate each analyzable field in
declaration order, then apply the overrides on top (`Object.assign`). -/
def generateSingleDocumentSync (reg : List SGenerator) (ctx : GenCtxL)
    (overrides : JsObj) (fields : List (String × FieldAnalysisL)) : Except GenErr JsObj :=
  match genFieldsSync reg ctx overrides fields [] with
  | .error e => .error e
  | .ok doc => .ok (objAssign doc overrides)

/-- Record loop of `Factory.generateDocumentsSync` starting at record index
`i` with `remaining` records to go. -/
def genDocsSyncFrom (reg : List SGenerator) (ctx0 : GenCtxL) (overrides : JsObj)
    (fields : List (String × FieldAnalysisL)) (i : Nat) :
    Nat → Except GenErr (List JsObj)
  | 0 => .ok []
  | remaining + 1 =>
    match generateSingleDocumentSync reg { ctx0 with index := i } overrides fields with
    | .error e =>
      .error ⟨"Failed to generate document at index " ++ toString i ++ ": "
        ++ e.message, some ("index_" ++ toString i)⟩
    | .ok doc =>
      match genDocsSyncFrom reg ctx0 overrides fields (i + 1) remaining with
      | .error e => .error e
      | .ok docs => .ok (doc :: docs)

/-- `Factory.generateDocumentsSync`. -/
def generateDocumentsSync (reg : List SGenerator) (ctx0 : GenCtxL)
    (overrides : JsObj) (fields : List (String × FieldAnalysisL)) (count : Nat) :
    Except GenErr (List JsObj) :=
  genDocsSyncFrom reg ctx0 overrides fields 0 count

/-- Result shape of `build`/`make`/`create`: a single (possibly `undefined`)
record when the effective count is exactly 1, else a list. -/
inductive BuildResultL where
  | one : Option JsObj → BuildResultL
  | many : List JsObj → BuildResultL

/-- The factory state the claims exercise (the model, hooks and traits are
inert in the source: `applyTraits` and `runHooks` are empty placeholders). -/
structure FactoryStateL where
  reg : List SGenerator
  count : Nat
  overrides : JsObj
  relations : List (String × Nat)
  fields : List (String × FieldAnalysisL)
  ctx : GenCtxL
  batchSize : Option Nat
  validateOpt : Option Bool

/-- `Factory.build(count?)`: resolve the effective count, generate
synchronously, wrap errors, and unwrap a count-1 result (`documents[0]!`). -/
def buildSync (st : FactoryStateL) (countArg : Option Nat) : Except GenErr BuildResultL :=
  let actualCount := countArg.getD st.count
  match generateDocumentsSync st.reg st.ctx st.overrides st.fields actualCount with
  | .error e => .error ⟨"Failed to build documents: " ++ e.message, some "build"⟩
  | .ok documents =>
    .ok (if actualCount == 1 then .one documents.head? else .many documents)

/-! ## Factory create path (`Factory.create` / `persistDocuments` /
`bulkCreate`)

The asynchronous collaborators — the generators' `generate`, the relationship
manager, and `Model.insertMany` — are opaque value sources/sinks per the spec,
modelled as oracle functions in `CreateEnv`. -/

/-- Opaque async collaborators of the create path. -/
structure CreateEnv where
  agen : SGenerator → GenCtxL → Except GenErr Value
  relStep : JsObj → String → Nat → GenCtxL → Except GenErr JsObj
  sink : List JsObj → Bool → Except GenErr (List JsObj)

/-- `Factory.generateFieldValue` (async path): same selection and error
wrapping as the sync path, with the generator's `generate` as the value
source. -/
def generateFieldValueA (env : CreateEnv) (reg : List SGenerator) (ctx : GenCtxL)
    (fieldPath : String) (fa : FieldAnalysisL) : Except GenErr Value :=
  let ctx := { ctx with fieldPath := fieldPath }
  match getBest reg fa.type (some fa.constraints) with
  | none =>
    .error ⟨"No generator found for field type: " ++ fieldTypeStr fa.type,
      some fieldPath⟩
  | some generator =>
    match env.agen generator ctx with
    | .ok v => .ok v
    | .error e =>
      .error ⟨"Failed to generate value for field " ++ fieldPath ++ ": "
        ++ e.message, some fieldPath⟩

/-- Field loop of `Factory.generateSingleDocument` (async). -/
def genFieldsA (env : CreateEnv) (reg : List SGenerator) (ctx : GenCtxL) (overrides : JsObj) :
    List (String × FieldAnalysisL) → JsObj → Except GenErr JsObj
  | [], doc => .ok doc
  | (fieldPath, fa) :: rest, doc =>
    if shouldGenerateField overrides fieldPath fa then
      match generateFieldValueA env reg ctx fieldPath fa with
      | .error e => .error e
      | .ok v => genFieldsA env reg ctx overrides rest (setFieldValue doc (splitDot fieldPath) v)
    else genFieldsA env reg ctx overrides rest doc

/-- `Factory.generateRelationships`: one relationship-manager call per
`withRelated` registration. -/
def genRelationships (env : CreateEnv) (ctx : GenCtxL) :
    List (String × Nat) → JsObj → Except GenErr JsObj
  | [], doc => .ok doc
  | (fieldName, count) :: rest, doc =>
    match env.relStep doc fieldName count ctx with
    | .error e => .error e
    | .ok doc' => genRelationships env ctx rest doc'

/-- `Factory.generateSingleDocument` (async): traits (no-op placeholder),
fields, overrides, then relationships. -/
def generateSingleDocumentA (env : CreateEnv) (reg : List SGenerator) (ctx : GenCtxL)
    (overrides : JsObj) (fields : List (String × FieldAnalysisL))
    (relations : List (String × Nat)) : Except GenErr JsObj :=
  match genFieldsA env reg ctx overrides fields [] with
  | .error e => .error e
  | .ok doc => genRelationships env ctx relations (objAssign doc overrides)

/-- Record loop of `Factory.generateDocuments` (async). -/
def genDocsAFrom (env : CreateEnv) (st : FactoryStateL) (i : Nat) :
    Nat → Except GenErr (List JsObj)
  | 0 => .ok []
  | remaining + 1 =>
    match generateSingleDocumentA env st.reg { st.ctx with index := i }
        st.overrides st.fields st.relations with
    | .error e =>
      .error ⟨"Failed to generate document at index " ++ toString i ++ ": "
        ++ e.message, some ("index_" ++ toString i)⟩
    | .ok doc =>
      match genDocsAFrom env st (i + 1) remaining with
      | .error e => .error e
      | .ok docs => .ok (doc :: docs)

/-- `Factory.generateDocuments` (async). -/
def generateDocumentsA (env : CreateEnv) (st : FactoryStateL) (count : Nat) :
    Except GenErr (List JsObj) :=
  genDocsAFrom env st 0 count

/-- `BulkCreateOptions` as `persistDocuments` builds them. -/
structure BulkCreateOptionsL where
  batchSize : Nat
  validate : Bool
  continueOnError : Bool
  ordered : Bool

/-- Slice `docs` into batches of `batchSize` (`documents.slice(i, i +
batchSize)`; the source's loop requires `batchSize ≥ 1`, which the default 100
guarantees). -/
def chunkGo (batchSize : Nat) : Nat → List JsObj → List (List JsObj)
  | 0, _ => []
  | _, [] => []
  | fuel + 1, d :: ds =>
    (d :: ds.take (batchSize - 1)) :: chunkGo batchSize fuel (ds.drop (batchSize - 1))

/-- Entry point of the slicing loop; each iteration consumes at least one
document, so `docs.length` fuel always suffices (for `batchSize ≥ 1`, which
the default 100 guarantees — `batchSize = 0` diverges in the JS source). -/
def chunkList (batchSize : Nat) (docs : List JsObj) : List (List JsObj) :=
  chunkGo batchSize docs.length docs

/-- Batch loop of `Factory.bulkCreate`: rethrow on a failed batch unless
`continueOnError`, in which case the batch is skipped (and logged). -/
def bulkBatches (env : CreateEnv) (opts : BulkCreateOptionsL) :
    List (List JsObj) → List JsObj → Except GenErr (List JsObj)
  | [], acc => .ok acc
  | batch :: rest, acc =>
    match env.sink batch opts.ordered with
    | .ok res => bulkBatches env opts rest (acc ++ res)
    | .error e =>
      if !opts.continueOnError then .error e
      else bulkBatches env opts rest acc

/-- `Factory.bulkCreate`. -/
def bulkCreate (env : CreateEnv) (opts : BulkCreateOptionsL) (documents : List JsObj) :
    Except GenErr (List JsObj) :=
  bulkBatches env opts (chunkList opts.batchSize documents) []

/-- `FactoryResult` (persistence summary; the process-metric fields —
timings and memory snapshots — are outside the model). -/
structure FactoryResultL where
  documents : List JsObj
  success : Nat
  failed : Nat
  errors : List GenErr

/-- The `BulkCreateOptions` literal `persistDocuments` constructs:
`continueOnError: false, ordered: true`, batch size and validate from the
factory options. -/
def persistOpts (st : FactoryStateL) : BulkCreateOptionsL :=
  ⟨st.batchSize.getD 100, st.validateOpt.getD true, false, true⟩

/-- `Factory.persistDocuments`: run `bulkCreate` and record either the created
documents or the caught error in the result summary. It never throws. -/
def persistDocuments (env : CreateEnv) (st : FactoryStateL) (documents : List JsObj) :
    FactoryResultL :=
  match bulkCreate env (persistOpts st) documents with
  | .ok createdDocs => ⟨createdDocs, createdDocs.length, 0, []⟩
  | .error e => ⟨[], 0, documents.length, [e]⟩

/-- `Factory.create(count?)`: generate (wrapping a generation failure in the
"Failed to create documents" error), persist, run the (empty) after-create
hooks, and unwrap a count-1 result (`result.documents[0]!`, which is
`undefined` when no document was persisted). -/
def createA (env : CreateEnv) (st : FactoryStateL) (countArg : Option Nat) :
    Except GenErr BuildResultL :=
  let actualCount := countArg.getD st.count
  match generateDocumentsA env st actualCount with
  | .error e => .error ⟨"Failed to create documents: " ++ e.message, some "create"⟩
  | .ok documents =>
    let result := persistDocuments env st documents
    .ok (if actualCount == 1 then .one result.documents.head?
         else .many result.documents)

/-! ## Schema analyzer (`src/utils/schema-analyzer.ts`) -/

/-- An entry of the analyzer's pattern table (`FieldPattern`): the regex is
modelled by its decidable test on field names (each default regex is an
anchored, case-insensitive alternation of literal words). -/
structure AnalyzerPattern where
  name : String
  regexTest : String → Bool
  ptype : String
  weight : Option ℚ
  generator : Option String
  validation : Option (String → Bool)

/-- A recognized pattern as `recognizePatterns` reports it. -/
structure RecognizedPattern where
  name : String
  confidence : ℚ
  ptype : String
  generator : Option String

/-- JS `pattern.weight || 0.5` (`0` and `undefined` both fall back). -/
def jsOrHalf (w : Option ℚ) : ℚ :=
  match w with
  | some x => if x == 0 then 1/2 else x
  | none => 1/2

/-- `SchemaAnalyzer.calculatePatternConfidence`: base weight (defaulted),
boosted 1.5× on an exact case-insensitive name match, halved when an extra
validation predicate exists and rejects, clamped to 1. -/
def calculatePatternConfidence (fieldName : String) (p : AnalyzerPattern) : ℚ :=
  let confidence := jsOrHalf p.weight
  let confidence :=
    if lowerStr fieldName == lowerStr p.name then confidence * (3/2) else confidence
  let confidence :=
    match p.validation with
    | some f => if !(f fieldName) then confidence * (1/2) else confidence
    | none => confidence
  min confidence 1

/-- Default table entry: `email`. -/
def patEmail : AnalyzerPattern :=
  ⟨"email",
    fun f => ["email", "e_mail", "emailaddress", "email_address"].contains (lowerStr f),
    "email", some (9/10), some "faker.internet.email", none⟩

/-- Default table entry: `phone`. -/
def patPhone : AnalyzerPattern :=
  ⟨"phone",
    fun f => ["phone", "telephone", "tel", "mobile", "cell", "phonenumber",
      "phone_number"].contains (lowerStr f),
    "phone", some (9/10), some "faker.phone.number", none⟩

/-- Default table entry: `url`. -/
def patUrl : AnalyzerPattern :=
  ⟨"url",
    fun f => ["url", "website", "site", "link", "homepage"].contains (lowerStr f),
    "url", some (8/10), some "faker.internet.url", none⟩

/-- Default table entry: `name`. -/
def patName : AnalyzerPattern :=
  ⟨"name",
    fun f => ["name", "title", "label", "firstname", "lastname", "fullname",
      "first_name", "last_name", "full_name"].contains (lowerStr f),
    "name", some (8/10), some "faker.person.fullName", none⟩

/-- Default table entry: `address`. -/
def patAddress : AnalyzerPattern :=
  ⟨"address",
    fun f => ["address", "street", "city", "state", "country", "zip", "postal",
      "location"].contains (lowerStr f),
    "address", some (7/10), some "faker.location.streetAddress", none⟩

/-- Default table entry: `date`. -/
def patDate : AnalyzerPattern :=
  ⟨"date",
    fun f => ["date", "time", "created", "updated", "birth", "born", "at",
      "on"].contains (lowerStr f),
    "date", some (7/10), some "faker.date.recent", none⟩

/-- Default table entry: `currency`. -/
def patCurrency : AnalyzerPattern :=
  ⟨"currency",
    fun f => ["price", "cost", "amount", "total", "fee", "charge", "payment",
      "salary", "wage"].contains (lowerStr f),
    "currency", some (8/10), some "faker.finance.amount", none⟩

/-- `SchemaAnalyzer.getDefaultPatterns` in declaration order. -/
def analyzerPatterns : List AnalyzerPattern :=
  [patEmail, patPhone, patUrl, patName, patAddress, patDate, patCurrency]

/-- Descending-confidence order used to sort recognized patterns
(`(a, b) => b.confidence - a.confidence`). -/
def confGE (a b : RecognizedPattern) : Prop :=
  b.confidence ≤ a.confidence

instance confGEDec : DecidableRel confGE :=
  fun a b => inferInstanceAs (Decidable (b.confidence ≤ a.confidence))

instance confGETotal : IsTotal RecognizedPattern confGE :=
  ⟨fun a b => le_total b.confidence a.confidence⟩

instance confGETrans : IsTrans RecognizedPattern confGE :=
  ⟨fun _ _ _ h1 h2 => le_trans h2 h1⟩

/-- Result record of `recognizePatterns`. -/
structure RecognizeResult where
  patterns : List RecognizedPattern
  bestMatch : Option RecognizedPattern

/-- The strictly-greater best-match fold of `recognizePatterns`' loop. -/
def bestMatchFold : List RecognizedPattern → Option RecognizedPattern × ℚ →
    Option RecognizedPattern × ℚ
  | [], acc => acc
  | rp :: rest, (best, highest) =>
    if highest < rp.confidence then bestMatchFold rest (some rp, rp.confidence)
    else bestMatchFold rest (best, highest)

/-- `SchemaAnalyzer.recognizePatterns`: collect every table pattern whose
regex matches, with its computed confidence, track the strictly-best match,
and return the matches sorted by descending confidence (a stable sort, as JS
`Array.prototype.sort` is). -/
def recognizePatterns (fieldName : String) : RecognizeResult :=
  let recognized := analyzerPatterns.filterMap (fun p =>
    if p.regexTest fieldName then
      some (RecognizedPattern.mk p.name (calculatePatternConfidence fieldName p)
        p.ptype p.generator)
    else none)
  ⟨List.insertionSort confGE recognized, (bestMatchFold recognized (none, 0)).1⟩

/-- A semantic definition (`SemanticDefinition`): name, scoring function,
compatible types, optional suggested constraints and related fields. -/
structure SemanticDefL where
  name : String
  keywords : List String
  compatibleTypes : List FieldType
  scoringFn : String → FieldType → ℚ
  domain : String
  suggested : Option ValidationConstraints
  related : Option (List String)

/-- Default semantic: `identifier`. -/
def semIdentifier : SemanticDefL :=
  ⟨"identifier", ["id", "uuid", "guid", "key", "ref"],
    [.STRING, .OBJECTID],
    fun n t =>
      if strContains n "id" || strContains n "key" then 8/10
      else if t == .OBJECTID then 9/10
      else 0,
    "system", none, none⟩

/-- Default semantic: `personal_info`. -/
def semPersonal : SemanticDefL :=
  ⟨"personal_info", ["name", "email", "phone", "address", "age", "birth"],
    [.STRING, .NUMBER, .DATE],
    fun n _ =>
      if ["name", "email", "phone", "address", "age", "birth"].any
          (fun k => strContains n k) then 8/10 else 0,
    "user", none, none⟩

/-- Default semantic: `content`. -/
def semContent : SemanticDefL :=
  ⟨"content", ["title", "description", "content", "text", "message", "comment"],
    [.STRING],
    fun n _ =>
      if ["title", "description", "content", "text", "message"].any
          (fun k => strContains n k) then 7/10 else 0,
    "content", none, none⟩

/-- Default semantic: `financial`. -/
def semFinancial : SemanticDefL :=
  ⟨"financial", ["price", "cost", "amount", "total", "fee", "payment", "salary"],
    [.NUMBER, .DECIMAL128],
    fun n _ =>
      if ["price", "cost", "amount", "total", "fee", "payment"].any
          (fun k => strContains n k) then 8/10 else 0,
    "finance", none, none⟩

/-- `SchemaAnalyzer.getDefaultSemantics`. -/
def analyzerSemantics : List SemanticDefL :=
  [semIdentifier, semPersonal, semContent, semFinancial]

/-- Result record of `analyzeSemantics`. -/
structure SemanticResult where
  semantic : Option String
  confidence : ℚ
  suggestedType : Option FieldType
  relatedFields : List String

/-- The best-semantic loop of `analyzeSemantics` (strictly-better score over
the 0.5 threshold wins; first definition wins ties). -/
def semanticsFold (fieldName : String) (ft : FieldType) :
    List SemanticDefL → SemanticResult → SemanticResult
  | [], acc => acc
  | sd :: rest, acc =>
    let confidence := sd.scoringFn (lowerStr fieldName) ft
    if acc.confidence < confidence ∧ 1/2 < confidence then
      semanticsFold fieldName ft rest
        ⟨some sd.name, confidence, sd.compatibleTypes.head?,
          acc.relatedFields ++ (sd.related.getD [])⟩
    else semanticsFold fieldName ft rest acc

/-- `SchemaAnalyzer.analyzeSemantics`. -/
def analyzeSemantics (fieldName : String) (ft : FieldType) : SemanticResult :=
  semanticsFold fieldName ft analyzerSemantics ⟨none, 0, none, []⟩

/-- Declared options of a mongoose schema type, as the analyzer reads them. -/
structure SchemaTypeOptionsL where
  required : Option Bool
  unique : Bool
  min : Option Int
  max : Option Int
  minLengthU : Option Nat
  minlengthL : Option Nat
  maxLengthU : Option Nat
  maxlengthL : Option Nat
  matchRe : Option RegexL
  enumVals : Option (List Value)
  default : Option Value
  ref : Option String
  typeIsArray : Bool
  description : Option String
  desc : Option String
  examplesOpt : Option (List Value)
  exampleOpt : Option Value

/-- A mongoose validator entry (`{type, validator, message}`). -/
structure ValidatorL where
  vtype : String
  hasFn : Bool
  fn : Value → Bool
  message : Option String

/-- A mongoose `SchemaType`, as the analyzer observes it. -/
structure SchemaTypeL where
  instanceName : String
  options : SchemaTypeOptionsL
  validators : List ValidatorL
  isSchema : Bool
  hasSchemaProp : Bool

/-- `SchemaAnalyzer.extractRequired`. -/
def extractRequired (st : SchemaTypeL) : Bool :=
  st.options.required == some true
    || st.validators.any (fun v => v.vtype == "required")

/-- JS `a || b` over optional naturals (`0` is falsy). -/
def jsOrOptNat (a b : Option Nat) : Option Nat :=
  match a with
  | some x => if x == 0 then b else some x
  | none => b

/-- `SchemaAnalyzer.extractConstraints`. -/
def extractConstraints (st : SchemaTypeL) : ValidationConstraints :=
  let customValidator := st.validators.find? (fun v => v.hasFn)
  { required := extractRequired st
    unique := st.options.unique
    min := st.options.min
    max := st.options.max
    minLength := jsOrOptNat st.options.minLengthU st.options.minlengthL
    maxLength := jsOrOptNat st.options.maxLengthU st.options.maxlengthL
    matchRe := st.options.matchRe
    enumVals := st.options.enumVals
    validate := customValidator.map (fun v =>
      ⟨v.fn, (v.message.getD "Custom validation failed")⟩)
    default := st.options.default }

/-- `SchemaAnalyzer.getFieldType` (unknown instances default to `Mixed`). -/
def getFieldType (st : SchemaTypeL) : FieldType :=
  if st.instanceName == "String" then .STRING
  else if st.instanceName == "Number" then .NUMBER
  else if st.instanceName == "Boolean" then .BOOLEAN
  else if st.instanceName == "Date" then .DATE
  else if st.instanceName == "ObjectID" then .OBJECTID
  else if st.instanceName == "Array" then .ARRAY
  else if st.instanceName == "Buffer" then .BUFFER
  else if st.instanceName == "Map" then .MAP
  else if st.instanceName == "Decimal128" then .DECIMAL128
  else .MIXED

/-- `SchemaAnalyzer.isArrayField`. -/
def isArrayField (st : SchemaTypeL) : Bool :=
  st.instanceName == "Array" || st.options.typeIsArray

/-- `SchemaAnalyzer.hasNestedSchema`. -/
def hasNestedSchema (st : SchemaTypeL) : Bool :=
  st.isSchema || st.hasSchemaProp

/-- `SchemaAnalyzer.detectRelationships`: `ref` first, then embedded, then
subdocument. -/
def detectRelationships (st : SchemaTypeL) (path : String) : Option FieldRelationshipL :=
  match st.options.ref with
  | some m => some ⟨"ref", some m, path, isArrayField st⟩
  | none =>
    if st.isSchema then some ⟨"embedded", none, path, isArrayField st⟩
    else if hasNestedSchema st then some ⟨"subdocument", none, path, isArrayField st⟩
    else none

/-- `SchemaAnalyzer.shouldAutoGenerate`: a declared default always wins (no
generation), then required/relationship force generation, then the Mongo
internals are excluded. -/
def shouldAutoGenerate (path : String) (constraints : ValidationConstraints)
    (relationship : Option FieldRelationshipL) : Bool :=
  if constraints.default.isSome then false
  else if constraints.required then true
  else if relationship.isSome then true
  else if path == "_id" || path == "__v" then false
  else true

/-- `SchemaAnalyzer.getGeneratorHint`. -/
def getGeneratorHint (ft : FieldType) (patterns : List RecognizedPattern)
    (semantic : Option String) : Option String :=
  match patterns.find? (fun p => p.generator.isSome) with
  | some p => p.generator
  | none =>
    match semantic with
    | some s => some ("semantic:" ++ s)
    | none => some ("type:" ++ lowerStr (fieldTypeStr ft))

/-- `SchemaAnalyzer.getFieldDescription` (`options.description ||
options.desc`). -/
def getFieldDescription (st : SchemaTypeL) : Option String :=
  match st.options.description with
  | some s => if s == "" then st.options.desc else some s
  | none => st.options.desc

/-- `SchemaAnalyzer.getFieldExamples` (JS truthiness of the raw option values
is collapsed to presence, which is claim-irrelevant). -/
def getFieldExamples (st : SchemaTypeL) : Option (List Value) :=
  if st.options.examplesOpt.isSome || st.options.exampleOpt.isSome then
    some [st.options.exampleOpt.getD Value.vNull]
  else none

/-- `AnalysisOptions`. -/
structure AnalysisOptionsL where
  enablePatternRecognition : Option Bool
  enablePatterns : Option Bool
  enableSemanticAnalysis : Option Bool
  enableSemantics : Option Bool
  enableCaching : Option Bool
  maxDepth : Option Nat

/-- `SchemaAnalyzer.analyzeField` (the recursive sub-analysis for nested
schemas is flagged by `hasNested`; it affects none of the fields below). -/
def analyzeField (st : SchemaTypeL) (path : String) (opts : AnalysisOptionsL) :
    FieldAnalysisL :=
  let fieldType := getFieldType st
  let constraints := extractConstraints st
  let relationship := detectRelationships st path
  let patternResult :=
    if opts.enablePatternRecognition != some false
        && opts.enablePatterns != some false then
      recognizePatterns path
    else ⟨[], none⟩
  let semanticResult :=
    if opts.enableSemanticAnalysis != some false
        && opts.enableSemantics != some false then
      analyzeSemantics path fieldType
    else ⟨none, 0, none, []⟩
  { path := path
    type := fieldType
    required := constraints.required
    unique := constraints.unique
    isArray := isArrayField st
    defaultValue := constraints.default
    constraints := constraints
    relationship := relationship
    patterns := patternResult.patterns.map (fun p => p.name)
    semantic := semanticResult.semantic
    generatorHint := getGeneratorHint fieldType patternResult.patterns
      semanticResult.semantic
    autoGenerate := shouldAutoGenerate path constraints relationship
    description := getFieldDescription st
    examples := getFieldExamples st
    hasNested := hasNestedSchema st }

/-! ## Concrete fixtures used by the theorems -/

/-- A generation context for a record at index 0 (epoch clock, fixed fresh
id). -/
def ctx0 : GenCtxL := ⟨"", 0, 1, 0, Value.vStr "65f000000000000000000000"⟩

/-- Constraints of a string field declaring `enum: ["a", "b", "c"]`. -/
def statusConstraints : ValidationConstraints :=
  { noConstraints with enumVals := some [.vStr "a", .vStr "b", .vStr "c"] }

/-- Helper: on the semantic path, a field named `status` draws from the
hard-coded status list, whatever the oracle supplies. -/
theorem strGenerate_status (o : StrOracle) :
    strGenerate o "status" none = statusValues.getD (o.pick % 4) "" := by
  have hp : strGenerateByPattern o "status" = "" := rfl
  have hs : strGenerateBySemantic o "status" =
      some (jsRandomElement o.pick statusValues) := rfl
  have hl : statusValues.length = 4 := rfl
  simp only [strGenerate, hp, hs, jsRandomElement, hl, Option.getD_some,
    strApplyConstraints]
  rcases h : o.pick % 4 with _ | _ | _ | _ | k
  · simp [statusValues]
  · simp [statusValues]
  · simp [statusValues]
  · simp [statusValues]
  · omega

/-- C2: the claim asserts every generated value of an enum-constrained field
belongs to the declared enum. In the code, `getConstraintsFromContext`
returns `undefined` unconditionally (the `GenerationContext` carries no
constraints), so the selected string generator never sees the enum: a string
field named `status` with `enum: ["a","b","c"]` is routed to the semantic
branch and yields one of `active`/`inactive`/`pending`/`archived` — never a
member of the declared enum — under every possible random draw. -/
theorem c2_enum_closure_fails (o : StrOracle) (ctx : GenCtxL) :
    strGetConstraintsFromContext ctx = none ∧
    getBest defaultRegistry .STRING (some statusConstraints) = some mongooseStringGen ∧
    Value.vStr (strGenerate o "status" (strGetConstraintsFromContext ctx))
      ∉ (statusConstraints.enumVals.getD []) := by
  refine ⟨rfl, rfl, ?_⟩
  show Value.vStr (strGenerate o "status" none) ∉ _
  rw [strGenerate_status]
  have h4 : o.pick % 4 < 4 := Nat.mod_lt _ (by decide)
  rcases h : o.pick % 4 with _ | _ | _ | _ | k
  · simp [statusValues, statusConstraints, noConstraints]
  · simp [statusValues, statusConstraints, noConstraints]
  · simp [statusValues, statusConstraints, noConstraints]
  · simp [statusValues, statusConstraints, noConstraints]
  · omega

/-- Context for generating a field named `createdAt`. -/
def ctxCreatedAt : GenCtxL := { ctx0 with fieldPath := "createdAt" }

/-- Context for generating a field named `updatedAt`. -/
def ctxUpdatedAt : GenCtxL := { ctx0 with fieldPath := "updatedAt" }

/-- C8: the claim asserts `updatedAt >= createdAt` for every generated record,
because the updated-date generator samples between the sibling created value
and now when that value is available. In the code `getRelatedDate` is a stub
returning `null` unconditionally, so the sibling is never available and
`updatedAt` is always drawn from the independent recent-90-days window: with
the clock at 0, valid draws put `createdAt` at 0 (now) and `updatedAt` 80 days
earlier, violating the ordering. -/
theorem c8_updated_can_precede_created :
    (∀ ctx dtype, getRelatedDate ctx dtype = none) ∧
    getBest defaultRegistry .DATE none = some mongooseDateGen ∧
    dateGenerate 63072000000 0 ctxCreatedAt = 0 ∧
    dateGenerate 864000000 0 ctxUpdatedAt = -6912000000 ∧
    (-6912000000 : Int) < 0 :=
  ⟨fun _ _ => rfl, rfl, rfl, rfl, by decide⟩

/-- Helper: an empty candidate set makes `getBest` return none for every
constraint set. -/
theorem getBest_of_getAll_nil (reg : List SGenerator) (t : FieldType)
    (h : getAll reg t = []) (c : Option ValidationConstraints) :
    getBest reg t c = none := by
  unfold getBest
  rw [h]
  rfl

/-- Helper: when no generator is selectable for a field's type, the sync
field-generation path fails with the "No generator found" error. -/
theorem genFieldSync_no_generator (reg : List SGenerator) (ctx : GenCtxL)
    (p : String) (fa : FieldAnalysisL)
    (h : getBest reg fa.type (some fa.constraints) = none) :
    generateFieldValueSync reg ctx p fa =
      .error ⟨"No generator found for field type: " ++ fieldTypeStr fa.type,
        some p⟩ := by
  unfold generateFieldValueSync
  rw [h]

/-- Helper: both halves of the uncovered-type property, for a type with no
capable default generator. -/
theorem c10aux (t : FieldType) (h : getAll defaultRegistry t = []) :
    (∀ c, getBest defaultRegistry t c = none) ∧
    (∀ ctx p fa, fa.type = t →
      generateFieldValueSync defaultRegistry ctx p fa =
        .error ⟨"No generator found for field type: " ++ fieldTypeStr t,
          some p⟩) := by
  refine ⟨getBest_of_getAll_nil _ _ h, fun ctx p fa hfa => ?_⟩
  rw [← hfa]
  exact genFieldSync_no_generator _ _ _ _
    (hfa ▸ getBest_of_getAll_nil _ _ h (some fa.constraints))

/-- C10: with only the default generators registered, `getBest` yields a
generator exactly for the `String`, `Number` and `Date` field types; for every
other field type it yields none and the factory's field generation fails with
the "No generator found" error. -/
theorem c10_default_generator_coverage :
    getBest defaultRegistry .STRING none = some mongooseStringGen ∧
    getBest defaultRegistry .NUMBER none = some mongooseNumberGen ∧
    getBest defaultRegistry .DATE none = some mongooseDateGen ∧
    (∀ t : FieldType, t ≠ .STRING → t ≠ .NUMBER → t ≠ .DATE →
      (∀ c, getBest defaultRegistry t c = none) ∧
      (∀ ctx p fa, fa.type = t →
        generateFieldValueSync defaultRegistry ctx p fa =
          .error ⟨"No generator found for field type: " ++ fieldTypeStr t,
            some p⟩)) := by
  refine ⟨rfl, rfl, rfl, fun t hS hN hD => ?_⟩
  cases t with
  | STRING => exact absurd rfl hS
  | NUMBER => exact absurd rfl hN
  | DATE => exact absurd rfl hD
  | BOOLEAN => exact c10aux _ rfl
  | OBJECTID => exact c10aux _ rfl
  | ARRAY => exact c10aux _ rfl
  | OBJECT => exact c10aux _ rfl
  | MIXED => exact c10aux _ rfl
  | BUFFER => exact c10aux _ rfl
  | MAP => exact c10aux _ rfl
  | UUID => exact c10aux _ rfl
  | DECIMAL128 => exact c10aux _ rfl
  | BIGINT => exact c10aux _ rfl

/-- A boolean field analysis (e.g. an `isActive` flag with no constraints). -/
def faBool : FieldAnalysisL :=
  ⟨"flag", .BOOLEAN, false, false, false, none, noConstraints, none, [], none,
    none, true, none, none, false⟩

/-- C10 witness: the uncovered-type half evaluated at `Boolean`. -/
theorem c10_default_generator_coverage_witness :
    getBest defaultRegistry .BOOLEAN none = none ∧
    generateFieldValueSync defaultRegistry ctx0 "flag" faBool =
      .error ⟨"No generator found for field type: Boolean", some "flag"⟩ :=
  ⟨(c10_default_generator_coverage.2.2.2 .BOOLEAN (by decide) (by decide)
      (by decide)).1 none,
    (c10_default_generator_coverage.2.2.2 .BOOLEAN (by decide) (by decide)
      (by decide)).2 ctx0 "flag" faBool rfl⟩

/-- The default registry after `setEnabled("string", false)`. -/
def regStringDisabled : List SGenerator :=
  setEnabledReg defaultRegistry "string" false

/-- C4 counterexample: the claim says a sole capable generator that has been
disabled is never returned. Disabling the only STRING-capable default
generator and querying `getBest` returns that disabled generator: the
single-candidate branch of `getBest` skips the `isEnabled` filter. -/
theorem c4_counterexample :
    (getAll regStringDisabled .STRING).length = 1 ∧
    getBest regStringDisabled .STRING none =
      some { mongooseStringGen with enabled := false } ∧
    ({ mongooseStringGen with enabled := false } : SGenerator).enabled = false :=
  ⟨rfl, rfl, rfl⟩

/-- Helper: a list whose head is `some a` contains `a`. -/
theorem headSomeMem {α : Type} {l : List α} {a : α} (h : l.head? = some a) :
    a ∈ l := by
  cases l with
  | nil => simp at h
  | cons x xs =>
    simp at h
    subst h
    exact List.mem_cons_self x xs

/-- C4 amended: `getBest` only returns generators whose `canHandle` accepts
the field type; when two or more capable generators exist, the returned one is
enabled and none is returned exactly when no capable generator is enabled;
when no capable generator exists none is returned; but when exactly one
capable generator exists it is returned regardless of its enabled flag (the
single-candidate branch skips the enabled filter, so the original claim's
"sole disabled generator is never returned" fails — see the
counterexample). -/
theorem c4_amended (reg : List SGenerator) (t : FieldType)
    (c : Option ValidationConstraints) :
    (∀ g, getBest reg t c = some g → g.canHandle t none = true) ∧
    (2 ≤ (getAll reg t).length → ∀ g, getBest reg t c = some g → g.enabled = true) ∧
    ((getAll reg t).length = 1 → ∃ g, getBest reg t c = some g ∧ g.canHandle t none = true) ∧
    (getAll reg t = [] → getBest reg t c = none) ∧
    (2 ≤ (getAll reg t).length →
      (getBest reg t c = none ↔ (getAll reg t).filter (fun g => g.enabled) = [])) := by
  rcases hcs : getAll reg t with _ | ⟨g0, rest⟩
  · have hb : getBest reg t c = none := getBest_of_getAll_nil reg t hcs c
    refine ⟨fun g hg => ?_, fun h2 => ?_, fun h1 => ?_, fun _ => hb, fun h2 => ?_⟩
    · rw [hb] at hg; cases hg
    · simp [hcs] at h2
    · simp [hcs] at h1
    · simp [hcs] at h2
  · rcases rest with _ | ⟨g1, rest'⟩
    · have hb : getBest reg t c = some g0 := by
        unfold getBest
        rw [hcs]
        rfl
      have hmem : g0 ∈ getAll reg t := by rw [hcs]; exact List.mem_cons_self _ _
      have hch : g0.canHandle t none = true := (List.mem_filter.mp hmem).2
      refine ⟨fun g hg => ?_, fun h2 => ?_, fun _ => ⟨g0, hb, hch⟩, fun hnil => ?_,
        fun h2 => ?_⟩
      · rw [hb] at hg
        cases hg
        exact hch
      · simp [hcs] at h2
      · cases hnil
      · simp [hcs] at h2
    · have hb : getBest reg t c =
          (List.insertionSort (gbRel c)
            ((g0 :: g1 :: rest').filter (fun g => g.enabled))).head? := by
        unfold getBest
        rw [hcs]
        rfl
      refine ⟨fun g hg => ?_, fun _ g hg => ?_, fun h1 => ?_, fun hnil => ?_,
        fun _ => ?_⟩
      · rw [hb] at hg
        have hmem := headSomeMem hg
        rw [List.mem_insertionSort] at hmem
        have h2 := List.mem_filter.mp hmem
        have h3 := List.mem_filter.mp (hcs ▸ h2.1 : g ∈ getAll reg t)
        exact h3.2
      · rw [hb] at hg
        have hmem := headSomeMem hg
        rw [List.mem_insertionSort] at hmem
        exact (List.mem_filter.mp hmem).2
      · simp [hcs] at h1
      · cases hnil
      · rw [hb]
        constructor
        · intro hnone
          rcases hsort : List.insertionSort (gbRel c)
              ((g0 :: g1 :: rest').filter (fun g => g.enabled)) with _ | ⟨x, xs⟩
          · have hperm := List.perm_insertionSort (gbRel c)
              ((g0 :: g1 :: rest').filter (fun g => g.enabled))
            rw [hsort] at hperm
            exact (List.Perm.nil_eq hperm).symm
          · rw [hsort] at hnone
            cases hnone
        · intro hfil
          rw [hfil]
          rfl

/-- C4 witness: the amended selection property evaluated on the default
registry at the STRING type. -/
theorem c4_amended_witness :
    mongooseStringGen.canHandle FieldType.STRING none = true :=
  (c4_amended defaultRegistry .STRING none).1 mongooseStringGen rfl

/-- A custom generator registered without any `generateSync` member (the
`BaseGenerator` interface declares `generateSync?` optional; e.g.
`GeneratorFactory.createCustom` builds such generators). -/
def noSyncGen : SGenerator :=
  ⟨"custom", "CustomGenerator", fun t _ => t == .STRING, 0, true, none⟩

/-- A registry whose sole STRING-capable generator has no sync form. -/
def regNoSync : List SGenerator := [noSyncGen]

/-- A plain string field analysis (field `nickname`, no constraints). -/
def faStr : FieldAnalysisL :=
  ⟨"nickname", .STRING, false, false, false, none, noConstraints, none, [],
    none, none, true, none, none, false⟩

/-- C1 counterexample: the claim says that when the selected generator has no
synchronous generation form, sync generation fails and no fallback is ever
substituted. With a selected generator whose `generateSync` member is absent,
`Factory.generateFieldValueSync` succeeds with the basic fallback value
`"test-value"` instead of failing. -/
theorem c1_counterexample :
    noSyncGen.genSync = none ∧
    getBest regNoSync .STRING (some faStr.constraints) = some noSyncGen ∧
    generateFieldValueSync regNoSync ctx0 "nickname" faStr =
      .ok (Value.vStr "test-value") :=
  ⟨rfl, rfl, rfl⟩

/-- C1 amended: on the sync path, when the selected generator's `generateSync`
member exists and throws (as the inherited async-rejecting base implementation
always does), generation fails with a `GenerationError` carrying the field
path and, for the base implementation, a message naming the generator class;
but when the generator has no `generateSync` member at all, the factory
silently substitutes the basic per-type fallback value and does not fail. -/
theorem c1_amended (reg : List SGenerator) (ctx : GenCtxL) (p : String)
    (fa : FieldAnalysisL) (g : SGenerator)
    (hg : getBest reg fa.type (some fa.constraints) = some g) :
    (g.genSync = none →
      generateFieldValueSync reg ctx p fa =
        .ok (getBasicValue { ctx with fieldPath := p } (fieldTypeStr fa.type))) ∧
    (∀ f e, g.genSync = some f → f { ctx with fieldPath := p } = .error e →
      generateFieldValueSync reg ctx p fa =
        .error ⟨"Failed to generate value for field " ++ p ++ ": " ++ e.message,
          some p⟩) ∧
    (∀ ctorName, g.genSync = some (syncRejects ctorName) →
      generateFieldValueSync reg ctx p fa =
        .error ⟨"Failed to generate value for field " ++ p ++ ": " ++
          ("Generator " ++ ctorName ++ " does not support synchronous generation"),
          some p⟩) := by
  refine ⟨fun hn => ?_, fun f e hf he => ?_, fun ctorName hf => ?_⟩
  · unfold generateFieldValueSync
    rw [hg]
    dsimp only
    rw [hn]
  · unfold generateFieldValueSync
    rw [hg]
    dsimp only
    rw [hf]
    dsimp only
    rw [he]
  · unfold generateFieldValueSync
    rw [hg]
    dsimp only
    rw [hf]
    rfl

/-- C1 witness: the amended behaviour evaluated at concrete inputs — the
missing-`generateSync` generator yields the fallback, and the default string
generator (async `generate`, inherited `generateSync`) yields the wrapped
error naming `MongooseStringGenerator` and the field. -/
theorem c1_amended_witness :
    generateFieldValueSync regNoSync ctx0 "nickname" faStr =
      .ok (Value.vStr "test-value") ∧
    generateFieldValueSync defaultRegistry ctx0 "nickname" faStr =
      .error ⟨"Failed to generate value for field nickname: " ++
        ("Generator MongooseStringGenerator does not support synchronous generation"),
        some "nickname"⟩ :=
  ⟨(c1_amended regNoSync ctx0 "nickname" faStr noSyncGen rfl).1 rfl,
    (c1_amended defaultRegistry ctx0 "nickname" faStr mongooseStringGen rfl).2.2
      "MongooseStringGenerator" rfl⟩

/-- A Mongo duplicate-key style bulk-insert failure. -/
def dupKeyErr : GenErr := ⟨"E11000 duplicate key error", none⟩

/-- Create-path environment whose persistence sink rejects every batch. -/
def envFail : CreateEnv :=
  ⟨fun _ _ => .ok (Value.vStr "x"), fun doc _ _ _ => .ok doc,
    fun _ _ => .error dupKeyErr⟩

/-- Factory state for a plain `create(2)` (no overrides, no relations, a
schema with no generatable fields). -/
def stC3 : FactoryStateL :=
  ⟨defaultRegistry, 2, [], [], [], ctx0, none, none⟩

/-- C3 counterexample: the claim says a bulk-insert failure on the default
create path aborts `create()` by raising the error. With a sink that fails
the (single) batch, generation succeeds, `bulkCreate` raises — but
`persistDocuments` catches the error into its result summary and `create()`
returns `ok` with an empty document list instead of raising. -/
theorem c3_counterexample :
    bulkCreate envFail (persistOpts stC3) [[], []] = .error dupKeyErr ∧
    generateDocumentsA envFail stC3 2 = .ok [[], []] ∧
    createA envFail stC3 none = .ok (BuildResultL.many []) :=
  ⟨rfl, rfl, rfl⟩

/-- C3 amended: on the default create path (`continueOnError: false`,
`ordered: true`), a bulk-insert failure makes `bulkCreate` rethrow, but
`persistDocuments` catches it, records it in the result's `errors` with every
document counted failed, and `create()` then returns an empty result to the
caller (an empty list, or an `undefined` single for an effective count of 1)
— the error is never raised out of `create()`. -/
theorem c3_amended (env : CreateEnv) (st : FactoryStateL) (countArg : Option Nat)
    (docs : List JsObj) (e : GenErr)
    (hgen : generateDocumentsA env st (countArg.getD st.count) = .ok docs)
    (hfail : bulkCreate env (persistOpts st) docs = .error e) :
    (persistDocuments env st docs).documents = [] ∧
    (persistDocuments env st docs).errors = [e] ∧
    (persistDocuments env st docs).failed = docs.length ∧
    createA env st countArg = .ok (if countArg.getD st.count == 1
      then BuildResultL.one none else BuildResultL.many []) := by
  have hp : persistDocuments env st docs = ⟨[], 0, docs.length, [e]⟩ := by
    unfold persistDocuments
    rw [hfail]
  refine ⟨by rw [hp], by rw [hp], by rw [hp], ?_⟩
  unfold createA
  dsimp only
  rw [hgen]
  dsimp only
  rw [hp]
  rfl

/-- C3 witness: the amended behaviour at the concrete failing sink. -/
theorem c3_amended_witness :
    (persistDocuments envFail stC3 [[], []]).errors = [dupKeyErr] ∧
    createA envFail stC3 none = .ok (BuildResultL.many []) :=
  ⟨(c3_amended envFail stC3 none [[], []] dupKeyErr rfl rfl).2.1,
    (c3_amended envFail stC3 none [[], []] dupKeyErr rfl rfl).2.2.2⟩

/-- C7: whenever a schema field declares a default value, the analyzer's
`shouldAutoGenerate` returns false before even looking at `required`, so the
resulting `FieldAnalysis` has `autoGenerate = false` (and carries the default
as `defaultValue`). -/
theorem c7_default_disables_autogenerate (st : SchemaTypeL) (path : String)
    (opts : AnalysisOptionsL) (d : Value) (hd : st.options.default = some d) :
    (analyzeField st path opts).autoGenerate = false ∧
    (analyzeField st path opts).defaultValue = some d := by
  have hc : (extractConstraints st).default = some d := hd
  constructor
  · show shouldAutoGenerate path (extractConstraints st)
      (detectRelationships st path) = false
    unfold shouldAutoGenerate
    rw [hc]
    rfl
  · exact hc

/-- A `Boolean` schema field declaring both `required: true` and a default. -/
def stWithDefault : SchemaTypeL :=
  ⟨"Boolean",
    ⟨some true, false, none, none, none, none, none, none, none, none,
      some (Value.vBool true), none, false, none, none, none, none⟩,
    [], false, false⟩

/-- Analysis options with everything left at its default. -/
def anOpts : AnalysisOptionsL := ⟨none, none, none, none, none, none⟩

/-- C7 witness: a required boolean field with `default: true` is analyzed with
`autoGenerate = false` (and `required = true`). -/
theorem c7_default_disables_autogenerate_witness :
    (analyzeField stWithDefault "isActive" anOpts).autoGenerate = false ∧
    (analyzeField stWithDefault "isActive" anOpts).defaultValue =
      some (Value.vBool true) ∧
    (analyzeField stWithDefault "isActive" anOpts).required = true :=
  ⟨(c7_default_disables_autogenerate stWithDefault "isActive" anOpts
      (Value.vBool true) rfl).1,
   (c7_default_disables_autogenerate stWithDefault "isActive" anOpts
      (Value.vBool true) rfl).2,
   rfl⟩

/-- Helper: with no validation predicate, `calculatePatternConfidence` is
exactly the claim's formula. -/
theorem calcConfidence_no_validation (fieldName : String) (p : AnalyzerPattern)
    (hv : p.validation = none) :
    calculatePatternConfidence fieldName p =
      min (1 : ℚ)
        ((if lowerStr fieldName == lowerStr p.name then (3/2 : ℚ) else 1)
          * jsOrHalf p.weight) := by
  unfold calculatePatternConfidence
  rw [hv]
  dsimp only
  split_ifs with h
  · rw [min_comm]
    congr 1
    ring
  · rw [min_comm, one_mul]

/-- C9: every table pattern without an extra validation predicate whose regex
matches a field name is reported by `recognizePatterns` with confidence
`min(1, weight × (1.5 on an exact case-insensitive name match, else 1))`, and
the reported list is sorted by descending confidence. -/
theorem c9_pattern_confidence (fieldName : String) (p : AnalyzerPattern)
    (hp : p ∈ analyzerPatterns) (hv : p.validation = none)
    (ht : p.regexTest fieldName = true) :
    (∃ e ∈ (recognizePatterns fieldName).patterns,
      e.name = p.name ∧
      e.confidence = min (1 : ℚ)
        ((if lowerStr fieldName == lowerStr p.name then (3/2 : ℚ) else 1)
          * jsOrHalf p.weight)) ∧
    List.Sorted confGE (recognizePatterns fieldName).patterns := by
  constructor
  · refine ⟨RecognizedPattern.mk p.name (calculatePatternConfidence fieldName p)
      p.ptype p.generator, ?_, rfl, calcConfidence_no_validation fieldName p hv⟩
    show _ ∈ List.insertionSort confGE (analyzerPatterns.filterMap _)
    rw [List.mem_insertionSort, List.mem_filterMap]
    exact ⟨p, hp, by rw [ht]; rfl⟩
  · exact List.sorted_insertionSort confGE _

/-- C9 witness: the field name `email` matches the `email` table pattern
(weight 0.9) exactly, so its boosted confidence clamps to 1, and the reported
list is sorted. -/
theorem c9_pattern_confidence_witness :
    (∃ e ∈ (recognizePatterns "email").patterns,
      e.name = patEmail.name ∧
      e.confidence = min (1 : ℚ)
        ((if lowerStr "email" == lowerStr patEmail.name then (3/2 : ℚ) else 1)
          * jsOrHalf patEmail.weight)) ∧
    List.Sorted confGE (recognizePatterns "email").patterns :=
  c9_pattern_confidence "email" patEmail
    (by unfold analyzerPatterns; exact List.mem_cons_self _ _) rfl rfl

/-- Helper: a successful synchronous record loop yields exactly as many
documents as requested. -/
theorem genDocsSyncFrom_length (reg : List SGenerator) (ctx0 : GenCtxL)
    (overrides : JsObj) (fields : List (String × FieldAnalysisL)) :
    ∀ remaining i docs,
      genDocsSyncFrom reg ctx0 overrides fields i remaining = .ok docs →
      docs.length = remaining := by
  intro remaining
  induction remaining with
  | zero =>
    intro i docs h
    cases h
    rfl
  | succ n ih =>
    intro i docs h
    unfold genDocsSyncFrom at h
    rcases hs : generateSingleDocumentSync reg { ctx0 with index := i }
        overrides fields with e | doc
    · rw [hs] at h
      cases h
    · rw [hs] at h
      dsimp only at h
      rcases hr : genDocsSyncFrom reg ctx0 overrides fields (i + 1) n with e2 | docs2
      · rw [hr] at h
        cases h
      · rw [hr] at h
        dsimp only at h
        cases h
        simp [ih (i + 1) docs2 hr]

/-- C6: `build(0)` yields an empty list; a successful `build(1)` yields a
single unwrapped record; a successful `build(n)` for `n ≥ 2` yields a list of
exactly `n` records. -/
theorem c6_count_collapsing (st : FactoryStateL) :
    buildSync st (some 0) = .ok (BuildResultL.many []) ∧
    (∀ r, buildSync st (some 1) = .ok r → ∃ d, r = .one (some d)) ∧
    (∀ n r, 2 ≤ n → buildSync st (some n) = .ok r →
      ∃ ds, r = .many ds ∧ ds.length = n) := by
  refine ⟨rfl, ?_, ?_⟩
  · intro r h
    unfold buildSync at h
    dsimp only [Option.getD_some] at h
    rcases hg : generateDocumentsSync st.reg st.ctx st.overrides st.fields 1
        with e | docs
    · rw [hg] at h
      cases h
    · rw [hg] at h
      dsimp only at h
      cases h
      have hlen : docs.length = 1 := genDocsSyncFrom_length _ _ _ _ 1 0 docs hg
      rcases docs with _ | ⟨d, rest⟩
      · cases hlen
      · rcases rest with _ | ⟨d2, rest2⟩
        · exact ⟨d, rfl⟩
        · simp at hlen
  · intro n r h2 h
    unfold buildSync at h
    rw [Option.getD_some] at h
    dsimp only at h
    rcases hg : generateDocumentsSync st.reg st.ctx st.overrides st.fields n
        with e | docs
    · rw [hg] at h
      cases h
    · rw [hg] at h
      dsimp only at h
      have hne : (n == 1) = false := by
        simp only [beq_eq_false_iff_ne, ne_eq]
        omega
      rw [hne] at h
      cases h
      exact ⟨docs, rfl, genDocsSyncFrom_length _ _ _ _ n 0 docs hg⟩

/-- A factory state over an empty field list (a schema whose every path is
skipped). -/
def stEmpty : FactoryStateL :=
  ⟨defaultRegistry, 1, [], [], [], ctx0, none, none⟩

/-- C6 witness: the three collapsing behaviours at a concrete factory state
(`build(0)`, `build(1)` and `build(2)`). -/
theorem c6_count_collapsing_witness :
    buildSync stEmpty (some 0) = .ok (BuildResultL.many []) ∧
    (∃ d, BuildResultL.one (some ([] : JsObj)) = .one (some d)) ∧
    (∃ ds, BuildResultL.many [[], []] = .many ds ∧ ds.length = 2) :=
  ⟨(c6_count_collapsing stEmpty).1,
    (c6_count_collapsing stEmpty).2.1 (.one (some [])) rfl,
    (c6_count_collapsing stEmpty).2.2 2 (.many [[], []]) (by omega) rfl⟩

/-- Helper: reading back after a property write. -/
theorem getProp_setProp (d : JsObj) (a k : String) (v : Value) :
    getProp (setProp d a v) k = if a == k then some v else getProp d k := by
  induction d with
  | nil => simp [setProp, getProp]
  | cons kv rest ih =>
    rcases kv with ⟨k0, w0⟩
    by_cases h1 : k0 = a
    · subst h1
      by_cases h2 : k0 = k
      · subst h2
        simp [setProp, getProp]
      · simp [setProp, getProp, h2]
    · have h1' : ¬a = k0 := fun hh => h1 hh.symm
      by_cases h2 : k0 = k
      · subst h2
        simp [setProp, getProp, h1, h1']
      · simp [setProp, getProp, h1, h2, ih]

/-- Helper: `Object.assign` leaves properties outside the source keys
untouched. -/
theorem getProp_objAssign_skip (src : JsObj) :
    ∀ (d : JsObj) (f : String), f ∉ src.map Prod.fst →
      getProp (objAssign d src) f = getProp d f := by
  induction src with
  | nil =>
    intro d f _
    rfl
  | cons kv rest ih =>
    intro d f h
    rcases kv with ⟨k, w⟩
    simp only [List.map_cons, List.mem_cons, not_or] at h
    show getProp (objAssign (setProp d k w) rest) f = getProp d f
    rw [ih _ _ h.2, getProp_setProp]
    have : (k == f) = false := by
      simp only [beq_eq_false_iff_ne, ne_eq]
      exact fun hkf => h.1 hkf.symm
    rw [this]
    rfl

/-- Helper: `Object.assign` installs every source binding (unique keys). -/
theorem getProp_objAssign (src : JsObj) :
    ∀ (d : JsObj) (f : String) (v : Value), (src.map Prod.fst).Nodup →
      getProp src f = some v → getProp (objAssign d src) f = some v := by
  induction src with
  | nil =>
    intro d f v _ hov
    cases hov
  | cons kv rest ih =>
    intro d f v hnd hov
    rcases kv with ⟨k, w⟩
    show getProp (objAssign (setProp d k w) rest) f = some v
    simp only [List.map_cons, List.nodup_cons] at hnd
    by_cases h : k = f
    · subst h
      have hw : w = v := by simpa [getProp] using hov
      subst hw
      rw [getProp_objAssign_skip rest _ _ hnd.1, getProp_setProp]
      simp
    · have hov' : getProp rest f = some v := by simpa [getProp, h] using hov
      exact ih (setProp d k w) f v hnd.2 hov'

/-- Helper: a successful sync single-document generation always ends by
assigning the overrides onto the generated fields. -/
theorem singleDocSync_shape (reg : List SGenerator) (ctx : GenCtxL)
    (overrides : JsObj) (fields : List (String × FieldAnalysisL)) (d : JsObj)
    (h : generateSingleDocumentSync reg ctx overrides fields = .ok d) :
    ∃ base, d = objAssign base overrides := by
  unfold generateSingleDocumentSync at h
  rcases hf : genFieldsSync reg ctx overrides fields [] with e | base
  · rw [hf] at h
    cases h
  · rw [hf] at h
    dsimp only at h
    cases h
    exact ⟨base, rfl⟩

/-- Helper: every document of a successful sync run carries the override
value at the overridden key. -/
theorem genDocsSyncFrom_override (reg : List SGenerator) (ctx0 : GenCtxL)
    (overrides : JsObj) (fields : List (String × FieldAnalysisL)) (f : String)
    (v : Value) (hnd : (overrides.map Prod.fst).Nodup)
    (hov : getProp overrides f = some v) :
    ∀ remaining i docs,
      genDocsSyncFrom reg ctx0 overrides fields i remaining = .ok docs →
      ∀ d ∈ docs, getProp d f = some v := by
  intro remaining
  induction remaining with
  | zero =>
    intro i docs h d hd
    cases h
    simp at hd
  | succ n ih =>
    intro i docs h d hd
    unfold genDocsSyncFrom at h
    rcases hs : generateSingleDocumentSync reg { ctx0 with index := i }
        overrides fields with e | doc
    · rw [hs] at h
      cases h
    · rw [hs] at h
      dsimp only at h
      rcases hr : genDocsSyncFrom reg ctx0 overrides fields (i + 1) n with e2 | docs2
      · rw [hr] at h
        cases h
      · rw [hr] at h
        dsimp only at h
        cases h
        rcases List.mem_cons.mp hd with rfl | hd2
        · obtain ⟨base, rfl⟩ := singleDocSync_shape _ _ _ _ _ hs
          exact getProp_objAssign overrides base f v hnd hov
        · exact ih (i + 1) docs2 hr d hd2

/-- Helper: the async single-document generation with no registered relations
also ends with the override assignment. -/
theorem singleDocA_shape (env : CreateEnv) (reg : List SGenerator) (ctx : GenCtxL)
    (overrides : JsObj) (fields : List (String × FieldAnalysisL)) (d : JsObj)
    (h : generateSingleDocumentA env reg ctx overrides fields [] = .ok d) :
    ∃ base, d = objAssign base overrides := by
  unfold generateSingleDocumentA at h
  rcases hf : genFieldsA env reg ctx overrides fields [] with e | base
  · rw [hf] at h
    cases h
  · rw [hf] at h
    dsimp only at h
    cases h
    exact ⟨base, rfl⟩

/-- Helper: async analogue of `genDocsSyncFrom_override` for a state with no
registered relations. -/
theorem genDocsAFrom_override (env : CreateEnv) (st : FactoryStateL) (f : String)
    (v : Value) (hnd : (st.overrides.map Prod.fst).Nodup)
    (hov : getProp st.overrides f = some v) (hrel : st.relations = []) :
    ∀ remaining i docs, genDocsAFrom env st i remaining = .ok docs →
      ∀ d ∈ docs, getProp d f = some v := by
  intro remaining
  induction remaining with
  | zero =>
    intro i docs h d hd
    cases h
    simp at hd
  | succ n ih =>
    intro i docs h d hd
    unfold genDocsAFrom at h
    rcases hs : generateSingleDocumentA env st.reg { st.ctx with index := i }
        st.overrides st.fields st.relations with e | doc
    · rw [hs] at h
      cases h
    · rw [hs] at h
      dsimp only at h
      rcases hr : genDocsAFrom env st (i + 1) n with e2 | docs2
      · rw [hr] at h
        cases h
      · rw [hr] at h
        dsimp only at h
        cases h
        rcases List.mem_cons.mp hd with rfl | hd2
        · rw [hrel] at hs
          obtain ⟨base, rfl⟩ := singleDocA_shape _ _ _ _ _ _ hs
          exact getProp_objAssign st.overrides base f v hnd hov
        · exact ih (i + 1) docs2 hr d hd2

/-- C5: a top-level field overridden via `with(f, v)` carries exactly `v` in
every document a successful generation run produces — on the synchronous
`build`/`make` path unconditionally, and on the asynchronous `create` path
whenever no `withRelated` relation is registered (relationship stitching is
the one step that runs after the override assignment). -/
theorem c5_override_precedence (st : FactoryStateL) (f : String) (v : Value)
    (hnd : (st.overrides.map Prod.fst).Nodup)
    (hov : getProp st.overrides f = some v) :
    (∀ n docs,
      generateDocumentsSync st.reg st.ctx st.overrides st.fields n = .ok docs →
      ∀ d ∈ docs, getProp d f = some v) ∧
    (st.relations = [] → ∀ env n docs, generateDocumentsA env st n = .ok docs →
      ∀ d ∈ docs, getProp d f = some v) := by
  constructor
  · intro n docs h
    exact genDocsSyncFrom_override st.reg st.ctx st.overrides st.fields f v
      hnd hov n 0 docs h
  · intro hrel env n docs h
    exact genDocsAFrom_override env st f v hnd hov hrel n 0 docs h

/-- Factory state with an override on `f` and a string schema field `f` (the
generator would produce `test-value`-style data; the override must win). -/
def stOverride : FactoryStateL :=
  ⟨defaultRegistry, 1, [("f", Value.vStr "keep")], [],
    [("f", faStr)], ctx0, none, none⟩

/-- C5 witness: the overridden field of the generated document holds exactly
the override value. -/
theorem c5_override_precedence_witness :
    getProp [("f", Value.vStr "keep")] "f" = some (Value.vStr "keep") :=
  (c5_override_precedence stOverride "f" (Value.vStr "keep") (by decide) rfl).1
    1 [[("f", Value.vStr "keep")]] rfl [("f", Value.vStr "keep")]
    (List.mem_singleton.mpr rfl)

end MTF
